import Mathlib

/-!
Verification of the cherrana payment-server repository.

The repository contains three near-duplicate Express servers:
  - `src/server.js`
  - `src/unnamed/part_000`
  - `src/unnamed/part_001`, which holds two further variants separated by a
    document marker at line 417: the "first variant" (lines 1-416) and the
    "second variant" (lines 417-919).

The definitions below are a shallow embedding of the request handlers of
those servers, up to the external processor call.  Handlers are modelled as
pure functions from the fields of the JSON request body (plus, where the
code reads them, ambient inputs such as the clock) to either an early HTTP
rejection or the request value handed to the processor, and from the
processor result status to the HTTP response.  JavaScript numbers that
arise here are exact decimal values (JSON literals and results of
`parseFloat` on decimal strings), so they are modelled as exact decimals
`mant / 10 ^ exp`; the concrete amounts in the claims are identical under
IEEE-754 double arithmetic.  `toLowerCase` is modelled on ASCII strings,
which covers every currency and country string the code manipulates.
-/

/-- An exact decimal number, `mant / 10 ^ exp`.  Models the JavaScript
numeric values that occur in the payment handlers (JSON number literals and
`parseFloat` results on decimal strings). -/
structure Dec where
  mant : ℤ
  exp : ℕ
deriving DecidableEq, Repr

/-- A JavaScript request-body field value as the handlers inspect it:
absent/`undefined`, `null`, a number, or a string.  (JSON bodies cannot
contain `NaN`; `NaN` only arises from `parseFloat`/`parseInt`, modelled as
`Option.none` below.) -/
inductive JVal where
  | undef
  | null
  | num (d : Dec)
  | str (s : String)
deriving DecidableEq, Repr

/-- JavaScript truthiness of a body field value: `undefined`, `null`, `0`
and `""` are falsy, every other number or string is truthy. -/
def JVal.truthy : JVal → Bool
  | .undef => false
  | .null => false
  | .num d => d.mant != 0
  | .str s => s != ""

/-- JavaScript whitespace accepted by `parseInt`/`parseFloat` before the
number (the forms that matter for this repository). -/
def isJsSpace (c : Char) : Bool :=
  c == ' ' || c == '\t' || c == '\n' || c == '\r'

/-- Value of a list of decimal digit characters. -/
def digitsToNat (l : List Char) : ℕ :=
  l.foldl (fun acc c => acc * 10 + (c.toNat - 48)) 0

/-- The longest leading run of decimal digits, as a number; `none` when the
list does not start with a digit (JavaScript `NaN`). -/
def leadingDigits (l : List Char) : Option ℕ :=
  let ds := l.takeWhile Char.isDigit
  if ds.isEmpty then none else some (digitsToNat ds)

/-- JavaScript `parseInt(s)` (radix 10) on the characters of `s`: skip
leading whitespace, allow a sign, then read the longest run of digits;
`none` models `NaN`. -/
def parseIntChars (l : List Char) : Option ℤ :=
  match l.dropWhile isJsSpace with
  | '-' :: rest => (leadingDigits rest).map (fun n => -(n : ℤ))
  | '+' :: rest => (leadingDigits rest).map (fun n => (n : ℤ))
  | rest => (leadingDigits rest).map (fun n => (n : ℤ))

/-- A JavaScript number as `parseFloat` can produce it: a finite exact
decimal, or one of the two infinities (`parseFloat("Infinity")`).  `NaN`
stays `Option.none` at the use sites. -/
inductive JsNum where
  | fin (d : Dec)
  | posInf
  | negInf
deriving DecidableEq, Repr

/-- Negation of a parsed number, applied for a leading minus sign. -/
def JsNum.neg : JsNum → JsNum
  | .fin d => .fin ⟨-d.mant, d.exp⟩
  | .posInf => .negInf
  | .negInf => .posInf

/-- Value of the tail of an exponent part: optional sign then digits.  An
exponent with no digits is not consumed by `parseFloat`, so it
contributes 0. -/
def expTail (l : List Char) : ℤ :=
  match l with
  | '-' :: r => -(((leadingDigits r).getD 0 : ℕ) : ℤ)
  | '+' :: r => (((leadingDigits r).getD 0 : ℕ) : ℤ)
  | r => (((leadingDigits r).getD 0 : ℕ) : ℤ)

/-- The exponent contributed by the characters following the mantissa:
`e` or `E` then `expTail`, otherwise 0. -/
def expPartVal (l : List Char) : ℤ :=
  match l with
  | 'e' :: rest => expTail rest
  | 'E' :: rest => expTail rest
  | _ => 0

/-- Unsigned part of a `parseFloat` literal: the `Infinity` keyword as a
prefix, or integer digits with an optional fraction after a decimal point
(at least one digit in total) followed by an optional `e`/`E` exponent;
the exact value `digits * 10 ^ exponent` is rendered as an exact
decimal. -/
def parseUnsignedNum (l : List Char) : Option JsNum :=
  if l.take 8 = ['I', 'n', 'f', 'i', 'n', 'i', 't', 'y'] then some JsNum.posInf
  else
    let intDs := l.takeWhile Char.isDigit
    let rest1 := l.drop intDs.length
    let fracDs := match rest1 with
      | '.' :: r => r.takeWhile Char.isDigit
      | _ => []
    if intDs.isEmpty && fracDs.isEmpty then none
    else
      let rest2 := match rest1 with
        | '.' :: r => r.drop fracDs.length
        | _ => rest1
      let e := expPartVal rest2
      let base : ℕ := digitsToNat intDs * 10 ^ fracDs.length + digitsToNat fracDs
      let scale : ℤ := (fracDs.length : ℤ) - e
      if 0 ≤ scale then some (JsNum.fin ⟨(base : ℤ), scale.toNat⟩)
      else some (JsNum.fin ⟨(base : ℤ) * 10 ^ (-scale).toNat, 0⟩)

/-- JavaScript `parseFloat(s)` on the characters of `s`: skip leading
whitespace, allow a sign, then the longest `Infinity`-or-decimal prefix
with optional fraction and exponent; `none` models `NaN`.  Finite values
are kept exact rather than rounded to IEEE-754 doubles; on every input
whose handler outcome the claims mention the two agree. -/
def parseFloatChars (l : List Char) : Option JsNum :=
  match l.dropWhile isJsSpace with
  | '-' :: rest => (parseUnsignedNum rest).map JsNum.neg
  | '+' :: rest => parseUnsignedNum rest
  | rest => parseUnsignedNum rest

/-- JavaScript `String.prototype.split` with a one-character separator,
over the character list of the string. -/
def splitOnCharAux (c : Char) : List Char → List Char × List (List Char)
  | [] => ([], [])
  | x :: xs =>
    let p := splitOnCharAux c xs
    if x = c then ([], p.1 :: p.2) else (x :: p.1, p.2)

/-- See `splitOnCharAux`: `"a/b".split("/")` becomes `[[a], [b]]`, and the
empty string splits to one empty field, as in JavaScript. -/
def splitOnChar (c : Char) (l : List Char) : List (List Char) :=
  (splitOnCharAux c l).1 :: (splitOnCharAux c l).2

/-- JavaScript `String.prototype.trim` on a character list. -/
def trimChars (l : List Char) : List Char :=
  ((l.dropWhile isJsSpace).reverse.dropWhile isJsSpace).reverse

/-- ASCII lower-casing of one character, as `toLowerCase` acts on the
ASCII strings this repository handles. -/
def lowerChar (c : Char) : Char :=
  if 'A' ≤ c ∧ c ≤ 'Z' then Char.ofNat (c.toNat + 32) else c

/-- ASCII `String.prototype.toLowerCase`. -/
def lowerStr (s : String) : String :=
  String.mk (s.toList.map lowerChar)

/-- JavaScript `parseFloat` applied to a request-body field value:
numbers pass through (a JSON body cannot hold an infinity), strings are
parsed, `undefined` and `null` give `NaN` (`none`). -/
def parseFloatJs : JVal → Option JsNum
  | .num d => some (JsNum.fin d)
  | .str s => parseFloatChars s.toList
  | .undef => none
  | .null => none

/-- JavaScript `Math.round` on an exact decimal: round half toward
positive infinity, i.e. the floor of `x + 1/2`, computed as a floor
division of integers. -/
def jsRound (d : Dec) : ℤ :=
  Int.ediv (2 * d.mant + 10 ^ d.exp) (2 * 10 ^ d.exp)

/-- Multiplication of an exact decimal by an integer constant (used for
the `* 100` conversion of an amount to cents). -/
def Dec.times (d : Dec) (k : ℤ) : Dec :=
  ⟨d.mant * k, d.exp⟩

/-- The value of the handlers' `amountInCents` variable when it is not
`NaN`: an integer, or one of the infinities (`Math.round(Infinity * 100)`
is `Infinity`, and `isNaN(Infinity)` is false). -/
inductive RoundedCents where
  | fin (c : ℤ)
  | posInf
  | negInf
deriving DecidableEq, Repr

/-- `Math.round(x * 100)` on a parsed number: finite values are rounded
half toward positive infinity after scaling by the positive constant 100,
and the infinities persist. -/
def jsRoundTimes100 : JsNum → RoundedCents
  | .fin d => .fin (jsRound (d.times 100))
  | .posInf => .posInf
  | .negInf => .negInf

/-- The `amountInCents` computation shared by every create-payment-intent
handler: `Math.round(parseFloat(amount) * 100)`, with `none` for `NaN`. -/
def amountInCents (amount : JVal) : Option RoundedCents :=
  (parseFloatJs amount).map jsRoundTimes100

/-- The request-body fields of `POST /create-payment-intent` that the
`server.js`, `part_000` and part_001 first-variant handlers inspect.  The
`currency` field is restricted to a string or absent, the only shapes on
which the code's `currency.toLowerCase()` call returns (any other shape
throws before reaching the processor). -/
structure CreateBody where
  amount : JVal
  currency : Option String
deriving DecidableEq, Repr

/-- The slice of the `stripe.paymentIntents.create` argument relevant to
the claims: the integer amount in minor units, the currency string, and
the idempotency key option (the second options argument of the stripe
call; `none` when the call passes no options object). -/
structure ProcessorCreateRequest where
  amount : ℤ
  currency : String
  idempotencyKey : Option String
deriving DecidableEq, Repr

/-- Outcome of a create-payment-intent handler up to the processor call:
an early HTTP rejection (status code, `error` body field, `success` body
field), or the request handed to `stripe.paymentIntents.create`.  The
third case records the path where the rounded amount is positive
infinity: the guard `isNaN(amountInCents) || amountInCents < threshold`
does not fire there, so the code reaches the stripe call with a
non-finite amount; since `ProcessorCreateRequest.amount` is an integer,
that outcome carries the other two forwarded fields directly. -/
inductive CreateOutcome where
  | reject (status : ℕ) (error : String) (success : Bool)
  | callProcessor (r : ProcessorCreateRequest)
  | callProcessorNonfinite (currency : String) (idempotencyKey : Option String)
deriving DecidableEq, Repr

/-- Destructuring default of every create handler: a missing (`undefined`)
`amount` field becomes the literal `57.48`. -/
def resolveAmount (v : JVal) : JVal :=
  if v = JVal.undef then JVal.num ⟨5748, 2⟩ else v

/-- `POST /create-payment-intent` of `src/server.js` (lines 130-204) up to
the processor call: default the amount to `57.48` and the currency to
`"usd"`, reject a falsy amount with `"Amount is required"`, reject a `NaN`
or sub-50-cent amount with the minimum-payment error, otherwise call the
processor with the rounded cent amount and the lower-cased currency and no
idempotency key. -/
def createPaymentIntent_server (b : CreateBody) : CreateOutcome :=
  if (resolveAmount b.amount).truthy = false then
    CreateOutcome.reject 400 "Amount is required" false
  else
    match amountInCents (resolveAmount b.amount) with
    | none => CreateOutcome.reject 400 "Invalid amount. Minimum payment is $0.50." false
    | some (RoundedCents.fin c) =>
      if c < 50 then CreateOutcome.reject 400 "Invalid amount. Minimum payment is $0.50." false
      else CreateOutcome.callProcessor ⟨c, lowerStr (b.currency.getD "usd"), none⟩
    | some RoundedCents.posInf =>
      CreateOutcome.callProcessorNonfinite (lowerStr (b.currency.getD "usd")) none
    | some RoundedCents.negInf =>
      CreateOutcome.reject 400 "Invalid amount. Minimum payment is $0.50." false

/-- `POST /create-payment-intent` of `src/unnamed/part_000` (lines
119-193): textually identical to the `server.js` handler. -/
def createPaymentIntent_part000 (b : CreateBody) : CreateOutcome :=
  if (resolveAmount b.amount).truthy = false then
    CreateOutcome.reject 400 "Amount is required" false
  else
    match amountInCents (resolveAmount b.amount) with
    | none => CreateOutcome.reject 400 "Invalid amount. Minimum payment is $0.50." false
    | some (RoundedCents.fin c) =>
      if c < 50 then CreateOutcome.reject 400 "Invalid amount. Minimum payment is $0.50." false
      else CreateOutcome.callProcessor ⟨c, lowerStr (b.currency.getD "usd"), none⟩
    | some RoundedCents.posInf =>
      CreateOutcome.callProcessorNonfinite (lowerStr (b.currency.getD "usd")) none
    | some RoundedCents.negInf =>
      CreateOutcome.reject 400 "Invalid amount. Minimum payment is $0.50." false

/-- `POST /create-payment-intent` of the part_001 first variant (lines
118-191): same shape as the `server.js` handler except that the amount
check rejects only `NaN` or a non-positive cent amount (`<= 0`, not
`< 50`) and uses a different error message; no idempotency key is passed
to the processor. -/
def createPaymentIntent_part001a (b : CreateBody) : CreateOutcome :=
  if (resolveAmount b.amount).truthy = false then
    CreateOutcome.reject 400 "Amount is required" false
  else
    match amountInCents (resolveAmount b.amount) with
    | none => CreateOutcome.reject 400 "Invalid amount. Please enter a valid number." false
    | some (RoundedCents.fin c) =>
      if c ≤ 0 then CreateOutcome.reject 400 "Invalid amount. Please enter a valid number." false
      else CreateOutcome.callProcessor ⟨c, lowerStr (b.currency.getD "usd"), none⟩
    | some RoundedCents.posInf =>
      CreateOutcome.callProcessorNonfinite (lowerStr (b.currency.getD "usd")) none
    | some RoundedCents.negInf =>
      CreateOutcome.reject 400 "Invalid amount. Please enter a valid number." false

/-- The request-body fields of the part_001 second-variant
`POST /create-payment-intent` handler (lines 560-677).  `currency` and
`idempotencyKey` are restricted to string-or-absent, the shapes the code
consumes without throwing. -/
structure CreateBody2 where
  name : JVal
  email : JVal
  street : JVal
  city : JVal
  state : JVal
  zip : JVal
  country : JVal
  amount : JVal
  currency : Option String
  idempotencyKey : Option String
deriving DecidableEq, Repr

/-- The missing-field test of the part_001 second-variant required-fields
check: a value is missing when it is strictly `undefined`, strictly
`null`, or strictly the empty string. -/
def isMissingJs : JVal → Bool
  | .undef => true
  | .null => true
  | .str s => s == ""
  | .num _ => false

/-- The `requiredFields` array of the part_001 second-variant create
handler, in source order: each entry is the destructured value, the field
name and the human label.  The amount entry carries the destructuring
default already applied. -/
def requiredFields2 (b : CreateBody2) : List (JVal × String × String) :=
  [ (resolveAmount b.amount, "amount", "Amount"),
    (b.name, "name", "Full Name"),
    (b.email, "email", "Email"),
    (b.street, "street", "Street Address"),
    (b.city, "city", "City"),
    (b.state, "state", "State/Province"),
    (b.zip, "zip", "ZIP/Postal Code"),
    (b.country, "country", "Country") ]

/-- The `missingFields` filter of the part_001 second-variant create
handler. -/
def missingFields2 (b : CreateBody2) : List (JVal × String × String) :=
  (requiredFields2 b).filter (fun f => isMissingJs f.1)

/-- The human labels of the missing fields, as joined into the error
message. -/
def missingLabels (b : CreateBody2) : List String :=
  (missingFields2 b).map (fun f => f.2.2)

/-- The idempotency key attached by the part_001 second-variant create
handler: the caller-supplied key when truthy, otherwise `pi_` followed by
`Date.now()`; `now` is the clock reading rendered as its decimal string. -/
def resolveIdempotencyKey (supplied : Option String) (now : String) : String :=
  match supplied with
  | some k => if k == "" then "pi_" ++ now else k
  | none => "pi_" ++ now

/-- `POST /create-payment-intent` of the part_001 second variant (lines
560-677) up to the processor call: reject when any required field is
missing, listing the labels; then convert the amount to cents and reject
`NaN` or a non-positive value; otherwise call the processor with the cent
amount, the lower-cased currency, and an idempotency key that is always
present. -/
def createPaymentIntent_part001b (b : CreateBody2) (now : String) : CreateOutcome :=
  if 0 < (missingFields2 b).length then
    CreateOutcome.reject 400
      ("Missing required fields: " ++ String.intercalate ", " (missingLabels b))
      false
  else
    match amountInCents (resolveAmount b.amount) with
    | none => CreateOutcome.reject 400 "Invalid amount. Please enter a valid number." false
    | some (RoundedCents.fin c) =>
      if c ≤ 0 then CreateOutcome.reject 400 "Invalid amount. Please enter a valid number." false
      else CreateOutcome.callProcessor
        ⟨c, lowerStr (b.currency.getD "usd"), some (resolveIdempotencyKey b.idempotencyKey now)⟩
    | some RoundedCents.posInf =>
      CreateOutcome.callProcessorNonfinite (lowerStr (b.currency.getD "usd"))
        (some (resolveIdempotencyKey b.idempotencyKey now))
    | some RoundedCents.negInf =>
      CreateOutcome.reject 400 "Invalid amount. Please enter a valid number." false

/-- The HTTP response slice a confirmation handler produces from the
status of the payment intent the processor returned: HTTP status code,
body `success` field and body `status` field. -/
structure HttpOut where
  status : ℕ
  success : Bool
  bodyStatus : String
deriving DecidableEq, Repr

/-- Response mapping of `POST /confirm-payment` in `src/unnamed/part_000`
(lines 226-247): the response object starts with `success: true`, the
`if`/`else if` chain only flips `success` to `false` for
`requires_payment_method`, and the handler always replies through
`res.json`, i.e. with HTTP 200. -/
def confirmPaymentResponse_part000 (piStatus : String) : HttpOut :=
  if piStatus = "requires_action" then ⟨200, true, piStatus⟩
  else if piStatus = "succeeded" then ⟨200, true, piStatus⟩
  else if piStatus = "processing" then ⟨200, true, piStatus⟩
  else if piStatus = "requires_payment_method" then ⟨200, false, piStatus⟩
  else ⟨200, true, piStatus⟩

/-- Response mapping of `POST /confirm-payment-intent` in `src/server.js`
(lines 290-307): the handler replies `res.json` with `success: true` and
the raw status for every processor status. -/
def confirmIntentResponse_server (piStatus : String) : HttpOut :=
  ⟨200, true, piStatus⟩

/-- Response mapping of `POST /confirm-payment` in the part_001 first
variant (lines 260-293): `succeeded` and `requires_action` reply 200 with
`success: true`, `requires_payment_method` replies 400 with
`success: false`, anything else replies 200 with `success: true`. -/
def confirmPaymentResponse_part001a (piStatus : String) : HttpOut :=
  if piStatus = "succeeded" then ⟨200, true, piStatus⟩
  else if piStatus = "requires_action" then ⟨200, true, piStatus⟩
  else if piStatus = "requires_payment_method" then ⟨400, false, piStatus⟩
  else ⟨200, true, piStatus⟩

/-- Response mapping of `POST /confirm-payment` in the part_001 second
variant (lines 746-750): `res.json` with `success: true` and the raw
status, for every processor status. -/
def confirmPaymentResponse_part001b (piStatus : String) : HttpOut :=
  ⟨200, true, piStatus⟩

/-- Expiry parsing of the part_001 first-variant `POST /confirm-payment`
(lines 217-219 and 229): split on the slash, `parseInt` the month part,
and add 2000 to the `parseInt` of the year part; a missing part behaves
as `parseInt(undefined)`, i.e. `NaN`. -/
def parseExpiry_part001a (expiry : String) : Option ℤ × Option ℤ :=
  let parts := splitOnChar '/' expiry.toList
  ((parts[0]?).bind parseIntChars,
   ((parts[1]?).bind parseIntChars).map (fun n => n + 2000))

/-- The JavaScript comparison `parseInt(part) < 50`, which is false when
the parse gives `NaN`. -/
def ltFifty (v : Option ℤ) : Bool :=
  match v with
  | some m => m < 50
  | none => false

/-- The arrow function the part_001 second-variant expiry parse maps over
both split parts (lines 706-708): `parseInt(part.trim())` plus 2000 when
the raw part has length 2 and parses below 50, plus 1900 otherwise; `NaN`
propagates. -/
def yearAdjust_part001b (part : List Char) : Option ℤ :=
  (parseIntChars (trimChars part)).map (fun n =>
    n + (if part.length = 2 && ltFifty (parseIntChars part) then 2000 else 1900))

/-- Expiry parsing of the part_001 second-variant `POST /confirm-payment`
(lines 706-708): split on the slash and apply `yearAdjust_part001b` to
every part, then destructure the first two results as month and year. -/
def parseExpiry_part001b (expiry : String) : Option ℤ × Option ℤ :=
  let parts := (splitOnChar '/' expiry.toList).map yearAdjust_part001b
  ((parts[0]?).join, (parts[1]?).join)

/-- The PIN regular expression of the part_001 second-variant
`POST /confirm-payment` (line 699): exactly 4 or exactly 6 decimal
digits. -/
def pinFormatOk (pin : String) : Bool :=
  (pin.length == 4 || pin.length == 6) && pin.toList.all Char.isDigit

/-- An early-rejection body of the part_001 second-variant
`POST /confirm-payment`: the `error` field and the `success` field when
the response object carries one (`none` when the field is absent). -/
structure RejectBody where
  error : String
  success : Option Bool
deriving DecidableEq, Repr

/-- Outcome of the part_001 second-variant `POST /confirm-payment` checks
that run before any processor call (lines 691-703). -/
inductive ConfirmPrecheck where
  | reject (status : ℕ) (body : RejectBody)
  | proceed
deriving DecidableEq, Repr

/-- The pre-processor checks of the part_001 second-variant
`POST /confirm-payment`: a falsy `paymentIntentId` is rejected with the
standard envelope (`success: false`); then a truthy `pin` failing the
4-or-6-digit regular expression is rejected with a body that has only an
`error` field and no `success` field.  The `pin` field is restricted to
string-or-absent, the shapes the claims concern. -/
def confirmPrecheck_part001b (paymentIntentId : JVal) (pin : Option String) : ConfirmPrecheck :=
  if paymentIntentId.truthy = false then
    ConfirmPrecheck.reject 400 ⟨"Payment intent ID is required", some false⟩
  else
    match pin with
    | none => ConfirmPrecheck.proceed
    | some p =>
      if p ≠ "" ∧ pinFormatOk p = false then
        ConfirmPrecheck.reject 400 ⟨"PIN must be 4 or 6 digits", none⟩
      else ConfirmPrecheck.proceed

/-- The `isProduction` flag computed at startup by all three servers:
`process.env.NODE_ENV === "production"`. -/
def isProductionEnv (nodeEnv : Option String) : Bool :=
  nodeEnv == some "production"

/-- The response body of the global error handler. -/
structure ErrorResponse where
  status : ℕ
  error : String
  success : Bool
  details : Option String
deriving DecidableEq, Repr

/-- The catch-all error middleware, textually identical in `server.js`
(lines 507-520), `part_000` (lines 397-410) and the part_001 second
variant (lines 891-904): HTTP 500, `success: false`, and a `details`
field that is `undefined` (hence absent from the JSON body) in production
and the exception message otherwise. -/
def globalErrorHandler (isProduction : Bool) (message : String) : ErrorResponse :=
  ⟨500, "Internal server error", false, if isProduction then none else some message⟩

/-- The `ALL_COUNTRIES` constant of `server.js`, `part_000` and the
part_001 first variant (the simplified list). -/
def ALL_COUNTRIES_server : List String :=
  ["US", "CA", "GB", "AU", "DE", "FR", "JP"]

/-- The `ALL_COUNTRIES` constant of the part_001 second variant (lines
520-536). -/
def ALL_COUNTRIES_part001b : List String :=
  ["AC", "AD", "AE", "AF", "AG", "AI", "AL", "AM", "AO", "AQ", "AR", "AT", "AU", "AW", "AX", "AZ",
   "BA", "BB", "BD", "BE", "BF", "BG", "BH", "BI", "BJ", "BL", "BM", "BN", "BO", "BQ", "BR", "BS",
   "BT", "BV", "BW", "BY", "BZ", "CA", "CD", "CF", "CG", "CH", "CI", "CK", "CL", "CM", "CN", "CO",
   "CR", "CV", "CW", "CY", "CZ", "DE", "DJ", "DK", "DM", "DO", "DZ", "EC", "EE", "EG", "EH", "ER",
   "ES", "ET", "FI", "FJ", "FK", "FO", "FR", "GA", "GB", "GD", "GE", "GF", "GG", "GH", "GI", "GL",
   "GM", "GN", "GP", "GQ", "GR", "GS", "GT", "GU", "GW", "GY", "HK", "HN", "HR", "HT", "HU", "ID",
   "IE", "IL", "IM", "IN", "IO", "IQ", "IS", "IT", "JE", "JM", "JO", "JP", "KE", "KG", "KH", "KI",
   "KM", "KN", "KR", "KW", "KY", "KZ", "LA", "LB", "LC", "LI", "LK", "LR", "LS", "LT", "LU", "LV",
   "LY", "MA", "MC", "MD", "ME", "MF", "MG", "MK", "ML", "MM", "MN", "MO", "MQ", "MR", "MS", "MT",
   "MU", "MV", "MW", "MX", "MY", "MZ", "NA", "NC", "NE", "NG", "NI", "NL", "NO", "NP", "NR", "NU",
   "NZ", "OM", "PA", "PE", "PF", "PG", "PH", "PK", "PL", "PM", "PN", "PR", "PS", "PT", "PY", "QA",
   "RE", "RO", "RS", "RU", "RW", "SA", "SB", "SC", "SD", "SE", "SG", "SH", "SI", "SJ", "SK", "SL",
   "SM", "SN", "SO", "SR", "SS", "ST", "SV", "SX", "SY", "SZ", "TA", "TC", "TD", "TF", "TG", "TH",
   "TJ", "TK", "TL", "TM", "TN", "TO", "TR", "TT", "TV", "TW", "TZ", "UA", "UG", "US", "UY", "UZ",
   "VA", "VC", "VE", "VG", "VI", "VN", "VU", "WF", "WS", "XK", "YE", "YT", "ZA", "ZM", "ZW"]

/-- The response of `GET /api/countries`. -/
structure CountriesResponse where
  success : Bool
  countries : List String
  count : ℕ
deriving DecidableEq, Repr

/-- `GET /api/countries` of `src/server.js` (lines 121-127). -/
def apiCountries_server : CountriesResponse :=
  ⟨true, ALL_COUNTRIES_server, ALL_COUNTRIES_server.length⟩

/-- `GET /api/countries` of the part_001 second variant (lines 551-557). -/
def apiCountries_part001b : CountriesResponse :=
  ⟨true, ALL_COUNTRIES_part001b, ALL_COUNTRIES_part001b.length⟩

/-- A two-character upper-case ASCII code, the shape of every entry of the
supported-country constants. -/
def isAlpha2 (s : String) : Bool :=
  s.length == 2 && s.toList.all Char.isUpper

/-- The `billing_address` object of the part_001 second-variant confirm
handler, with the fields lines 723-730 read; the handler inspects none of
the values.  The field is restricted to object-or-absent, the only shapes
the claims concern (an object is always truthy in JavaScript). -/
structure BillingAddress where
  name : JVal
  email : JVal
  street : JVal
  city : JVal
  state : JVal
  zip : JVal
  country : JVal
deriving DecidableEq, Repr

/-- The `billing_details` value of the `stripe.paymentMethods.create`
argument built by the part_001 second-variant confirm handler (lines
722-732). -/
structure BillingDetails where
  name : JVal
  email : JVal
  line1 : JVal
  city : JVal
  state : JVal
  postalCode : JVal
  country : JVal
deriving DecidableEq, Repr

/-- Lines 722-732: when `billing_address` is supplied the handler copies
its fields into `billing_details` unchanged - no country, state or other
check is applied - and otherwise passes `undefined`. -/
def billingDetails_part001b (billing_address : Option BillingAddress) : Option BillingDetails :=
  billing_address.map (fun a => ⟨a.name, a.email, a.street, a.city, a.state, a.zip, a.country⟩)

/-- The whitespace strip of line 711, `cardNumber.replace(whitespace
class, "")`. -/
def cleanCard (s : String) : String :=
  String.mk (s.toList.filter (fun ch => !(isJsSpace ch)))

/-- The slice of the `stripe.paymentMethods.create` argument the claims
concern (lines 714-733): the cleaned card number, the parsed expiry
month and year, the cvc value, and the billing details. -/
structure ProcessorMethodRequest where
  number : String
  expMonth : Option ℤ
  expYear : Option ℤ
  cvc : JVal
  billingDetails : Option BillingDetails
deriving DecidableEq, Repr

/-- Outcome of the part_001 second-variant `POST /confirm-payment` up to
the `stripe.paymentMethods.create` call. -/
inductive ConfirmStep2 where
  | reject (status : ℕ) (body : RejectBody)
  | callCreateMethod (m : ProcessorMethodRequest)
deriving DecidableEq, Repr

/-- The part_001 second-variant `POST /confirm-payment` (lines 680-733)
up to the payment-method creation: the intent-id and PIN prechecks run
first, then the expiry is parsed, the card number cleaned, and the method
request is sent with the pass-through billing details.  `cardNumber` and
`expiry` are restricted to strings, the only shapes on which the code's
`.replace` and `.split` calls return rather than throw. -/
def confirmPayment_part001b_toMethodCall (paymentIntentId : JVal) (pin : Option String)
    (cardNumber : String) (expiry : String) (cvc : JVal)
    (billing_address : Option BillingAddress) : ConfirmStep2 :=
  match confirmPrecheck_part001b paymentIntentId pin with
  | ConfirmPrecheck.reject s body => ConfirmStep2.reject s body
  | ConfirmPrecheck.proceed =>
    ConfirmStep2.callCreateMethod
      ⟨cleanCard cardNumber, (parseExpiry_part001b expiry).1, (parseExpiry_part001b expiry).2,
       cvc, billingDetails_part001b billing_address⟩

theorem resolveAmount_of_ne (v : JVal) (h : v ≠ JVal.undef) : resolveAmount v = v := by
  simp [resolveAmount, h]

theorem resolve_truthy_false_iff (v : JVal) :
    (resolveAmount v).truthy = false ↔ v ≠ JVal.undef ∧ v.truthy = false := by
  by_cases h : v = JVal.undef
  · subst h
    decide
  · rw [resolveAmount_of_ne v h]
    simp [h]

theorem createServer_call (b : CreateBody) (c : ℤ)
    (ht : (resolveAmount b.amount).truthy = true)
    (hc : amountInCents (resolveAmount b.amount) = some (RoundedCents.fin c))
    (h50 : 50 ≤ c) :
    createPaymentIntent_server b =
      CreateOutcome.callProcessor ⟨c, lowerStr (b.currency.getD "usd"), none⟩ := by
  simp [createPaymentIntent_server, ht, hc, not_lt.mpr h50]

theorem create001a_call (b : CreateBody) (c : ℤ)
    (ht : (resolveAmount b.amount).truthy = true)
    (hc : amountInCents (resolveAmount b.amount) = some (RoundedCents.fin c))
    (h1 : 1 ≤ c) :
    createPaymentIntent_part001a b =
      CreateOutcome.callProcessor ⟨c, lowerStr (b.currency.getD "usd"), none⟩ := by
  have hn0 : ¬ c ≤ 0 := by omega
  simp [createPaymentIntent_part001a, ht, hc, hn0]

theorem create001b_call (b : CreateBody2) (now : String) (c : ℤ)
    (hm : (missingFields2 b).length = 0)
    (hc : amountInCents (resolveAmount b.amount) = some (RoundedCents.fin c))
    (h1 : 1 ≤ c) :
    createPaymentIntent_part001b b now =
      CreateOutcome.callProcessor
        ⟨c, lowerStr (b.currency.getD "usd"), some (resolveIdempotencyKey b.idempotencyKey now)⟩ := by
  have hn0 : ¬ c ≤ 0 := by omega
  simp [createPaymentIntent_part001b, hm, hc, hn0]

theorem createServer_call_inv (b : CreateBody) (r : ProcessorCreateRequest)
    (h : createPaymentIntent_server b = CreateOutcome.callProcessor r) :
    r.currency = lowerStr (b.currency.getD "usd") ∧ r.idempotencyKey = none := by
  unfold createPaymentIntent_server at h
  split at h
  · simp at h
  · split at h
    · simp at h
    · split at h
      · simp at h
      · rw [CreateOutcome.callProcessor.injEq] at h
        subst h
        exact ⟨rfl, rfl⟩
    · simp at h
    · simp at h

theorem create000_call_inv (b : CreateBody) (r : ProcessorCreateRequest)
    (h : createPaymentIntent_part000 b = CreateOutcome.callProcessor r) :
    r.currency = lowerStr (b.currency.getD "usd") ∧ r.idempotencyKey = none := by
  unfold createPaymentIntent_part000 at h
  split at h
  · simp at h
  · split at h
    · simp at h
    · split at h
      · simp at h
      · rw [CreateOutcome.callProcessor.injEq] at h
        subst h
        exact ⟨rfl, rfl⟩
    · simp at h
    · simp at h

theorem create001a_call_inv (b : CreateBody) (r : ProcessorCreateRequest)
    (h : createPaymentIntent_part001a b = CreateOutcome.callProcessor r) :
    r.currency = lowerStr (b.currency.getD "usd") ∧ r.idempotencyKey = none := by
  unfold createPaymentIntent_part001a at h
  split at h
  · simp at h
  · split at h
    · simp at h
    · split at h
      · simp at h
      · rw [CreateOutcome.callProcessor.injEq] at h
        subst h
        exact ⟨rfl, rfl⟩
    · simp at h
    · simp at h

theorem create001b_call_inv (b : CreateBody2) (now : String) (r : ProcessorCreateRequest)
    (h : createPaymentIntent_part001b b now = CreateOutcome.callProcessor r) :
    r.currency = lowerStr (b.currency.getD "usd")
    ∧ r.idempotencyKey = some (resolveIdempotencyKey b.idempotencyKey now) := by
  unfold createPaymentIntent_part001b at h
  split at h
  · simp at h
  · split at h
    · simp at h
    · split at h
      · simp at h
      · rw [CreateOutcome.callProcessor.injEq] at h
        subst h
        exact ⟨rfl, rfl⟩
    · simp at h
    · simp at h

theorem createServer_nonfinite_inv (b : CreateBody) (cur : String) (k : Option String)
    (h : createPaymentIntent_server b = CreateOutcome.callProcessorNonfinite cur k) :
    cur = lowerStr (b.currency.getD "usd") ∧ k = none := by
  unfold createPaymentIntent_server at h
  split at h
  · simp at h
  · split at h
    · simp at h
    · split at h
      · simp at h
      · simp at h
    · rw [CreateOutcome.callProcessorNonfinite.injEq] at h
      exact ⟨h.1.symm, h.2.symm⟩
    · simp at h

theorem create000_nonfinite_inv (b : CreateBody) (cur : String) (k : Option String)
    (h : createPaymentIntent_part000 b = CreateOutcome.callProcessorNonfinite cur k) :
    cur = lowerStr (b.currency.getD "usd") ∧ k = none := by
  unfold createPaymentIntent_part000 at h
  split at h
  · simp at h
  · split at h
    · simp at h
    · split at h
      · simp at h
      · simp at h
    · rw [CreateOutcome.callProcessorNonfinite.injEq] at h
      exact ⟨h.1.symm, h.2.symm⟩
    · simp at h

theorem create001a_nonfinite_inv (b : CreateBody) (cur : String) (k : Option String)
    (h : createPaymentIntent_part001a b = CreateOutcome.callProcessorNonfinite cur k) :
    cur = lowerStr (b.currency.getD "usd") ∧ k = none := by
  unfold createPaymentIntent_part001a at h
  split at h
  · simp at h
  · split at h
    · simp at h
    · split at h
      · simp at h
      · simp at h
    · rw [CreateOutcome.callProcessorNonfinite.injEq] at h
      exact ⟨h.1.symm, h.2.symm⟩
    · simp at h

theorem create001b_nonfinite_inv (b : CreateBody2) (now : String) (cur : String)
    (k : Option String)
    (h : createPaymentIntent_part001b b now = CreateOutcome.callProcessorNonfinite cur k) :
    cur = lowerStr (b.currency.getD "usd")
    ∧ k = some (resolveIdempotencyKey b.idempotencyKey now) := by
  unfold createPaymentIntent_part001b at h
  split at h
  · simp at h
  · split at h
    · simp at h
    · split at h
      · simp at h
      · simp at h
    · rw [CreateOutcome.callProcessorNonfinite.injEq] at h
      exact ⟨h.1.symm, h.2.symm⟩
    · simp at h

theorem createServer_required_iff (b : CreateBody) :
    (createPaymentIntent_server b = CreateOutcome.reject 400 "Amount is required" false)
      ↔ (resolveAmount b.amount).truthy = false := by
  cases ht : (resolveAmount b.amount).truthy with
  | false => simp [createPaymentIntent_server, ht]
  | true =>
    constructor
    · intro h
      exfalso
      unfold createPaymentIntent_server at h
      rw [ht] at h
      cases hc : amountInCents (resolveAmount b.amount) with
      | none =>
        rw [hc] at h
        simp at h
      | some v =>
        rw [hc] at h
        cases v with
        | fin c =>
          by_cases h50 : c < 50
          · simp [h50] at h
          · simp [h50] at h
        | posInf => simp at h
        | negInf => simp at h
    · intro h
      cases h

theorem create001b_state_missing (b : CreateBody2) (now : String)
    (hs : isMissingJs b.state = true) :
    createPaymentIntent_part001b b now =
      CreateOutcome.reject 400
        ("Missing required fields: " ++ String.intercalate ", " (missingLabels b)) false
    ∧ "State/Province" ∈ missingLabels b := by
  have hmem : (b.state, "state", "State/Province") ∈ requiredFields2 b := by
    simp [requiredFields2]
  have hfmem : (b.state, "state", "State/Province") ∈ missingFields2 b :=
    List.mem_filter.mpr ⟨hmem, hs⟩
  have hlen : 0 < (missingFields2 b).length :=
    List.length_pos.mpr (List.ne_nil_of_mem hfmem)
  refine ⟨?_, List.mem_map_of_mem _ hfmem⟩
  unfold createPaymentIntent_part001b
  rw [if_pos hlen]

/-- Claim C1 counterexample: the `server.js` `POST /confirm-payment-intent`
handler answers a processor status of `requires_payment_method` with HTTP
200 and `success: true`, not with the claimed HTTP 400 and
`success: false`. -/
theorem C1_counterexample :
  ¬ ((confirmIntentResponse_server "requires_payment_method").status = 400
     ∧ (confirmIntentResponse_server "requires_payment_method").success = false) := by
  decide

/-- Claim C1 (amended): a processor status of `succeeded` maps to HTTP 200
with `success: true` in all four confirmation handlers; a status of
`requires_payment_method` maps to HTTP 400 with `success: false` only in
the part_001 first-variant `POST /confirm-payment`, while the `part_000`
`POST /confirm-payment` answers it with HTTP 200 and `success: false`, and
the `server.js` `POST /confirm-payment-intent` and the part_001
second-variant `POST /confirm-payment` answer it with HTTP 200 and
`success: true`. -/
theorem C1_amended_confirm_status_mapping :
  confirmIntentResponse_server "succeeded" = ⟨200, true, "succeeded"⟩
  ∧ confirmIntentResponse_server "requires_payment_method" =
      ⟨200, true, "requires_payment_method"⟩
  ∧ confirmPaymentResponse_part000 "succeeded" = ⟨200, true, "succeeded"⟩
  ∧ confirmPaymentResponse_part000 "requires_payment_method" =
      ⟨200, false, "requires_payment_method"⟩
  ∧ confirmPaymentResponse_part001a "succeeded" = ⟨200, true, "succeeded"⟩
  ∧ confirmPaymentResponse_part001a "requires_payment_method" =
      ⟨400, false, "requires_payment_method"⟩
  ∧ confirmPaymentResponse_part001b "succeeded" = ⟨200, true, "succeeded"⟩
  ∧ confirmPaymentResponse_part001b "requires_payment_method" =
      ⟨200, true, "requires_payment_method"⟩ := by
  decide

/-- Claim C3: on the spec scenario `expiry = "09/25"` the part_001
first-variant parse yields month 9 and year 2025, but the part_001
second-variant parse applies its year adjustment to the month part as well
and yields month 2009; the same adjustment sends the two-digit year 75 to
1975 rather than 2075.  Neither variant performs a 1..12 month range check
before the processor call. -/
theorem C3_expiry_parse_divergence :
  parseExpiry_part001a "09/25" = (some 9, some 2025)
  ∧ parseExpiry_part001b "09/25" = (some 2009, some 2025)
  ∧ parseExpiry_part001b "09/75" = (some 2009, some 1975)
  ∧ parseExpiry_part001a "13/25" = (some 13, some 2025) := by
  decide

/-- Claim C4 counterexample: the `server.js` create handler reaches the
processor with no idempotency key on a plain valid request. -/
theorem C4_counterexample :
  createPaymentIntent_server ⟨JVal.num ⟨100, 0⟩, none⟩ =
    CreateOutcome.callProcessor ⟨10000, "usd", none⟩ := by
  decide

/-- Claim C4 (amended): only the part_001 second-variant create handler
attaches an idempotency key (the caller-supplied key when truthy,
otherwise `pi_` followed by the timestamp); the `server.js`, `part_000`
and part_001 first-variant create handlers always call the processor with
no idempotency key.  The same holds on the path where the rounded amount
is non-finite. -/
theorem C4_amended_idempotency_key :
  (∀ (b : CreateBody) (r : ProcessorCreateRequest),
      createPaymentIntent_server b = CreateOutcome.callProcessor r →
      r.idempotencyKey = none)
  ∧ (∀ (b : CreateBody) (r : ProcessorCreateRequest),
      createPaymentIntent_part000 b = CreateOutcome.callProcessor r →
      r.idempotencyKey = none)
  ∧ (∀ (b : CreateBody) (r : ProcessorCreateRequest),
      createPaymentIntent_part001a b = CreateOutcome.callProcessor r →
      r.idempotencyKey = none)
  ∧ (∀ (b : CreateBody2) (now : String) (r : ProcessorCreateRequest),
      createPaymentIntent_part001b b now = CreateOutcome.callProcessor r →
      r.idempotencyKey = some (resolveIdempotencyKey b.idempotencyKey now))
  ∧ (∀ (b : CreateBody) (cur : String) (k : Option String),
      createPaymentIntent_server b = CreateOutcome.callProcessorNonfinite cur k → k = none)
  ∧ (∀ (b : CreateBody) (cur : String) (k : Option String),
      createPaymentIntent_part000 b = CreateOutcome.callProcessorNonfinite cur k → k = none)
  ∧ (∀ (b : CreateBody) (cur : String) (k : Option String),
      createPaymentIntent_part001a b = CreateOutcome.callProcessorNonfinite cur k → k = none)
  ∧ (∀ (b : CreateBody2) (now : String) (cur : String) (k : Option String),
      createPaymentIntent_part001b b now = CreateOutcome.callProcessorNonfinite cur k →
      k = some (resolveIdempotencyKey b.idempotencyKey now)) :=
  ⟨fun b r h => (createServer_call_inv b r h).2,
   fun b r h => (create000_call_inv b r h).2,
   fun b r h => (create001a_call_inv b r h).2,
   fun b now r h => (create001b_call_inv b now r h).2,
   fun b cur k h => (createServer_nonfinite_inv b cur k h).2,
   fun b cur k h => (create000_nonfinite_inv b cur k h).2,
   fun b cur k h => (create001a_nonfinite_inv b cur k h).2,
   fun b now cur k h => (create001b_nonfinite_inv b now cur k h).2⟩

/-- Claim C4 witness: the amended no-key conjunct applied at a concrete
valid `server.js` request. -/
theorem C4_witness :
  createPaymentIntent_server ⟨JVal.num ⟨100, 0⟩, none⟩ =
    CreateOutcome.callProcessor ⟨10000, "usd", none⟩
  ∧ ProcessorCreateRequest.idempotencyKey ⟨10000, "usd", none⟩ = none :=
  ⟨by decide,
   C4_amended_idempotency_key.1 ⟨JVal.num ⟨100, 0⟩, none⟩ ⟨10000, "usd", none⟩ (by decide)⟩

/-- Claim C5: `amount = "57.48"` with no currency passes validation and is
forwarded as 5748 minor units with currency `"usd"` (shown for the
`server.js` and part_001 first-variant handlers), and in every create
handler the forwarded currency is the lower-casing of the supplied
currency, defaulted to `"usd"` when absent - also on the path where the
rounded amount is non-finite. -/
theorem C5_currency_default_and_lowercase :
  createPaymentIntent_server ⟨JVal.str "57.48", none⟩ =
      CreateOutcome.callProcessor ⟨5748, "usd", none⟩
  ∧ createPaymentIntent_part001a ⟨JVal.str "57.48", none⟩ =
      CreateOutcome.callProcessor ⟨5748, "usd", none⟩
  ∧ (∀ (b : CreateBody) (r : ProcessorCreateRequest),
      createPaymentIntent_server b = CreateOutcome.callProcessor r →
      r.currency = lowerStr (b.currency.getD "usd"))
  ∧ (∀ (b : CreateBody) (r : ProcessorCreateRequest),
      createPaymentIntent_part000 b = CreateOutcome.callProcessor r →
      r.currency = lowerStr (b.currency.getD "usd"))
  ∧ (∀ (b : CreateBody) (r : ProcessorCreateRequest),
      createPaymentIntent_part001a b = CreateOutcome.callProcessor r →
      r.currency = lowerStr (b.currency.getD "usd"))
  ∧ (∀ (b : CreateBody2) (now : String) (r : ProcessorCreateRequest),
      createPaymentIntent_part001b b now = CreateOutcome.callProcessor r →
      r.currency = lowerStr (b.currency.getD "usd"))
  ∧ (∀ (b : CreateBody) (cur : String) (k : Option String),
      createPaymentIntent_server b = CreateOutcome.callProcessorNonfinite cur k →
      cur = lowerStr (b.currency.getD "usd"))
  ∧ (∀ (b : CreateBody) (cur : String) (k : Option String),
      createPaymentIntent_part000 b = CreateOutcome.callProcessorNonfinite cur k →
      cur = lowerStr (b.currency.getD "usd"))
  ∧ (∀ (b : CreateBody) (cur : String) (k : Option String),
      createPaymentIntent_part001a b = CreateOutcome.callProcessorNonfinite cur k →
      cur = lowerStr (b.currency.getD "usd"))
  ∧ (∀ (b : CreateBody2) (now : String) (cur : String) (k : Option String),
      createPaymentIntent_part001b b now = CreateOutcome.callProcessorNonfinite cur k →
      cur = lowerStr (b.currency.getD "usd")) :=
  ⟨by decide, by decide,
   fun b r h => (createServer_call_inv b r h).1,
   fun b r h => (create000_call_inv b r h).1,
   fun b r h => (create001a_call_inv b r h).1,
   fun b now r h => (create001b_call_inv b now r h).1,
   fun b cur k h => (createServer_nonfinite_inv b cur k h).1,
   fun b cur k h => (create000_nonfinite_inv b cur k h).1,
   fun b cur k h => (create001a_nonfinite_inv b cur k h).1,
   fun b now cur k h => (create001b_nonfinite_inv b now cur k h).1⟩

/-- Claim C5 witness: the lower-casing conjunct applied at a concrete
request with currency `"USD"`. -/
theorem C5_witness :
  createPaymentIntent_server ⟨JVal.num ⟨100, 0⟩, some "USD"⟩ =
    CreateOutcome.callProcessor ⟨10000, "usd", none⟩
  ∧ ProcessorCreateRequest.currency ⟨10000, "usd", none⟩ =
      lowerStr ((some "USD" : Option String).getD "usd") :=
  ⟨by decide,
   C5_currency_default_and_lowercase.2.2.1 ⟨JVal.num ⟨100, 0⟩, some "USD"⟩
     ⟨10000, "usd", none⟩ (by decide)⟩

/-- Claim C6: whenever an exception reaches the catch-all error middleware
the response is HTTP 500 with `success: false`, and the `details` field is
absent when `NODE_ENV` is `"production"` and carries the exception message
otherwise. -/
theorem C6_global_error_redaction (nodeEnv : Option String) (message : String) :
    globalErrorHandler (isProductionEnv nodeEnv) message =
      ⟨500, "Internal server error", false,
        if isProductionEnv nodeEnv then none else some message⟩ :=
  rfl

/-- Claim C7 counterexample: a three-digit PIN is rejected with HTTP 400,
but the response body is only the `error` field: it does not carry the
claimed `success: false` field. -/
theorem C7_counterexample :
  confirmPrecheck_part001b (JVal.str "pi_abc") (some "123") =
    ConfirmPrecheck.reject 400 ⟨"PIN must be 4 or 6 digits", none⟩
  ∧ confirmPrecheck_part001b (JVal.str "pi_abc") (some "123") ≠
    ConfirmPrecheck.reject 400 ⟨"PIN must be 4 or 6 digits", some false⟩ :=
  ⟨by decide, by decide⟩

/-- Claim C7 (amended): with a truthy payment-intent id, a supplied
non-empty pin that is not exactly 4 or exactly 6 digits is rejected before
any processor call with HTTP 400 and the body consisting of the `error`
field alone (no `success` field); a pin that matches the 4-or-6-digit
format is never rejected for PIN format, and an empty-string pin skips the
check entirely. -/
theorem C7_amended_pin_check :
  (∀ (pid : JVal) (p : String), pid.truthy = true → p ≠ "" → pinFormatOk p = false →
      confirmPrecheck_part001b pid (some p) =
        ConfirmPrecheck.reject 400 ⟨"PIN must be 4 or 6 digits", none⟩)
  ∧ (∀ (pid : JVal) (p : String), pinFormatOk p = true →
      confirmPrecheck_part001b pid (some p) ≠
        ConfirmPrecheck.reject 400 ⟨"PIN must be 4 or 6 digits", none⟩)
  ∧ (∀ pid : JVal,
      confirmPrecheck_part001b pid (some "") ≠
        ConfirmPrecheck.reject 400 ⟨"PIN must be 4 or 6 digits", none⟩) := by
  refine ⟨?_, ?_, ?_⟩
  · intro pid p ht hne hfmt
    simp [confirmPrecheck_part001b, ht, hne, hfmt]
  · intro pid p hfmt
    cases ht : pid.truthy with
    | false => simp [confirmPrecheck_part001b, ht]
    | true => simp [confirmPrecheck_part001b, ht, hfmt]
  · intro pid
    cases ht : pid.truthy with
    | false => simp [confirmPrecheck_part001b, ht]
    | true => simp [confirmPrecheck_part001b, ht]

/-- Claim C7 witness: the amended rejection conjunct applied at a truthy
intent id and the concrete pin `"123"`. -/
theorem C7_witness :
  JVal.truthy (JVal.str "pi_123") = true
  ∧ ("123" : String) ≠ ""
  ∧ pinFormatOk "123" = false
  ∧ confirmPrecheck_part001b (JVal.str "pi_123") (some "123") =
      ConfirmPrecheck.reject 400 ⟨"PIN must be 4 or 6 digits", none⟩ :=
  ⟨by decide, by decide, by decide,
   C7_amended_pin_check.1 (JVal.str "pi_123") "123" (by decide) (by decide) (by decide)⟩

/-- Claim C8 counterexample: `"ZZ"` is not in the part_001 second-variant
supported-country constant, yet a create request with country `"ZZ"` and
every required field present is not rejected: it reaches the processor. -/
theorem C8_counterexample :
  "ZZ" ∉ ALL_COUNTRIES_part001b
  ∧ createPaymentIntent_part001b
      ⟨JVal.str "n", JVal.str "e", JVal.str "s", JVal.str "c", JVal.str "CA",
       JVal.str "z", JVal.str "ZZ", JVal.str "57.48", none, none⟩ "0" =
      CreateOutcome.callProcessor ⟨5748, "usd", some "pi_0"⟩ :=
  ⟨by decide, by decide⟩

/-- Claim C8 (amended): no handler checks the billing country against the
supported-country list.  The part_001 second-variant create handler
forwards every request whose required fields are present and whose amount
converts to a positive finite cent value, whatever the country value
(shown concretely for country `"ZZ"`, which is outside `ALL_COUNTRIES`);
its confirm handler can reject only through the intent-id and PIN
prechecks and copies the supplied `billing_address` fields into the
payment-method request unchanged and unvalidated.  The create handler
does reject a missing or empty `state` for every country via its generic
required-field check, listing the `State/Province` label. -/
theorem C8_amended_address_checks :
  ("ZZ" ∉ ALL_COUNTRIES_part001b
    ∧ createPaymentIntent_part001b
        ⟨JVal.str "Jane Doe", JVal.str "jane@example.com", JVal.str "1 Main St",
         JVal.str "Springfield", JVal.str "CA", JVal.str "12345", JVal.str "ZZ",
         JVal.str "57.48", none, none⟩ "0" =
        CreateOutcome.callProcessor ⟨5748, "usd", some "pi_0"⟩)
  ∧ (∀ (b : CreateBody2) (now : String) (c : ℤ), (missingFields2 b).length = 0 →
      amountInCents (resolveAmount b.amount) = some (RoundedCents.fin c) → 1 ≤ c →
      createPaymentIntent_part001b b now =
        CreateOutcome.callProcessor
          ⟨c, lowerStr (b.currency.getD "usd"),
           some (resolveIdempotencyKey b.idempotencyKey now)⟩)
  ∧ (∀ (b : CreateBody2) (now : String), isMissingJs b.state = true →
      createPaymentIntent_part001b b now =
        CreateOutcome.reject 400
          ("Missing required fields: " ++ String.intercalate ", " (missingLabels b)) false
      ∧ "State/Province" ∈ missingLabels b)
  ∧ (∀ (pid : JVal) (pin : Option String) (card expiry : String) (cvc : JVal)
        (addr : Option BillingAddress) (s : ℕ) (body : RejectBody),
      confirmPayment_part001b_toMethodCall pid pin card expiry cvc addr =
        ConfirmStep2.reject s body →
      confirmPrecheck_part001b pid pin = ConfirmPrecheck.reject s body)
  ∧ (∀ (pid : JVal) (pin : Option String) (card expiry : String) (cvc : JVal)
        (addr : Option BillingAddress),
      confirmPrecheck_part001b pid pin = ConfirmPrecheck.proceed →
      confirmPayment_part001b_toMethodCall pid pin card expiry cvc addr =
        ConfirmStep2.callCreateMethod
          ⟨cleanCard card, (parseExpiry_part001b expiry).1, (parseExpiry_part001b expiry).2,
           cvc, billingDetails_part001b addr⟩)
  ∧ (∀ a : BillingAddress, billingDetails_part001b (some a) =
      some ⟨a.name, a.email, a.street, a.city, a.state, a.zip, a.country⟩) := by
  refine ⟨⟨by decide, by decide⟩, create001b_call, create001b_state_missing, ?_, ?_, fun a => rfl⟩
  · intro pid pin card expiry cvc addr s body h
    unfold confirmPayment_part001b_toMethodCall at h
    cases hp : confirmPrecheck_part001b pid pin with
    | reject s2 b2 =>
      rw [hp] at h
      injection h with h1 h2
      rw [h1, h2]
    | proceed =>
      rw [hp] at h
      simp at h
  · intro pid pin card expiry cvc addr hp
    unfold confirmPayment_part001b_toMethodCall
    rw [hp]

/-- Claim C8 witness: the amended missing-state conjunct applied at a
concrete request with country `"US"` and the `state` field absent. -/
theorem C8_witness :
  isMissingJs JVal.undef = true
  ∧ createPaymentIntent_part001b
      ⟨JVal.str "n", JVal.str "e", JVal.str "s", JVal.str "c", JVal.undef,
       JVal.str "z", JVal.str "US", JVal.str "57.48", none, none⟩ "0" =
      CreateOutcome.reject 400
        ("Missing required fields: " ++ String.intercalate ", "
          (missingLabels
            ⟨JVal.str "n", JVal.str "e", JVal.str "s", JVal.str "c", JVal.undef,
             JVal.str "z", JVal.str "US", JVal.str "57.48", none, none⟩)) false
  ∧ "State/Province" ∈ missingLabels
      ⟨JVal.str "n", JVal.str "e", JVal.str "s", JVal.str "c", JVal.undef,
       JVal.str "z", JVal.str "US", JVal.str "57.48", none, none⟩ :=
  ⟨by decide,
   (C8_amended_address_checks.2.2.1 _ "0" (by decide)).1,
   (C8_amended_address_checks.2.2.1 _ "0" (by decide)).2⟩

/-- Claim C9: both `GET /api/countries` handlers respond with
`success: true`, the countries array equal to the respective
`ALL_COUNTRIES` constant, a `count` equal to the length of that array, and
every entry a two-letter upper-case code. -/
theorem C9_countries_response :
  (apiCountries_server.success = true
    ∧ apiCountries_server.countries = ALL_COUNTRIES_server
    ∧ apiCountries_server.count = apiCountries_server.countries.length
    ∧ apiCountries_server.countries.all isAlpha2 = true)
  ∧ (apiCountries_part001b.success = true
    ∧ apiCountries_part001b.countries = ALL_COUNTRIES_part001b
    ∧ apiCountries_part001b.count = apiCountries_part001b.countries.length
    ∧ apiCountries_part001b.countries.all isAlpha2 = true) :=
  ⟨⟨rfl, rfl, rfl, by decide⟩, ⟨rfl, rfl, rfl, by decide⟩⟩

/-- Claim C10: a create request whose body has no `amount` key at all gets
the destructuring default `57.48` and reaches the processor with 5748
minor units (so the missing-amount rejection is unreachable for absent
amounts), and the `"Amount is required"` rejection fires exactly when the
`amount` key is present with a falsy value. -/
theorem C10_amount_default_unreachable :
  (∀ b : CreateBody, b.amount = JVal.undef →
      createPaymentIntent_server b =
        CreateOutcome.callProcessor ⟨5748, lowerStr (b.currency.getD "usd"), none⟩
      ∧ createPaymentIntent_part001a b =
        CreateOutcome.callProcessor ⟨5748, lowerStr (b.currency.getD "usd"), none⟩)
  ∧ (∀ b : CreateBody,
      (createPaymentIntent_server b = CreateOutcome.reject 400 "Amount is required" false)
        ↔ b.amount ≠ JVal.undef ∧ b.amount.truthy = false) := by
  constructor
  · intro b h
    have h1 : resolveAmount b.amount = JVal.num ⟨5748, 2⟩ := by rw [h]; decide
    have ht : (resolveAmount b.amount).truthy = true := by rw [h1]; decide
    have hc : amountInCents (resolveAmount b.amount) = some (RoundedCents.fin 5748) := by
      rw [h1]; decide
    exact ⟨createServer_call b 5748 ht hc (by omega), create001a_call b 5748 ht hc (by omega)⟩
  · intro b
    rw [createServer_required_iff b, resolve_truthy_false_iff]

/-- Claim C10 witness: the default-amount conjunct applied at a request
with no amount key, and the required-rejection equivalence applied at an
explicit zero amount. -/
theorem C10_witness :
  createPaymentIntent_server ⟨JVal.undef, none⟩ =
    CreateOutcome.callProcessor
      ⟨5748, lowerStr ((none : Option String).getD "usd"), none⟩
  ∧ createPaymentIntent_server ⟨JVal.num ⟨0, 0⟩, none⟩ =
      CreateOutcome.reject 400 "Amount is required" false :=
  ⟨(C10_amount_default_unreachable.1 ⟨JVal.undef, none⟩ rfl).1,
   (C10_amount_default_unreachable.2 ⟨JVal.num ⟨0, 0⟩, none⟩).mpr ⟨by decide, by decide⟩⟩
